import Mathlib

/-!
Verification of the control/connectivity/protocol core of the ESP8266
thermostat in src/src/main.cpp, against its natural-language specification.

Numeric model: C `float`/`double` values are embedded as rationals (ℚ);
`NAN` sentinels are embedded as `Option` (`none` = NaN / no value).
Millisecond clocks (`millis()`) are embedded as ℕ; the unsigned 32-bit
subtractions `millis() - t0` coincide with truncated ℕ subtraction on
monotone runs, which is how every theorem instantiates them.
-/

namespace Thermo

/-- Total hysteresis band in °C (`HYST_BAND_C = 0.5f`, main.cpp line 83). -/
def HYST_BAND_C : ℚ := 0.5

/-- Epsilon for setpoint comparisons (`SP_EPS = 0.05f`, main.cpp line 107). -/
def SP_EPS : ℚ := 0.05

/-- Minimum gap between filesystem writes (`FS_WRITE_MIN_GAP_MS`, line 106). -/
def FS_WRITE_MIN_GAP_MS : ℕ := 30000

/-- `apply_hysteresis` (main.cpp lines 1362-1375): strict 0.5 °C hysteresis
with the hard 19.8 °C ceiling checked first; `half = HYST_BAND_C * 0.5f`.
Returns 1 for heat ON, 0 for OFF, `prev` inside the dead band. -/
def apply_hysteresis (temp sp : ℚ) (prev : ℕ) : ℕ :=
  if temp ≥ 19.8 then 0
  else if temp < sp - HYST_BAND_C * 0.5 then 1
  else if temp > sp + HYST_BAND_C * 0.5 then 0
  else prev

/-- `DEVICE_DISCONNECTED_C` sentinel from the Dallas library (-127). -/
def DEVICE_DISCONNECTED_C : ℚ := -127

/-- The validity filter at the end of `ds_poll` (main.cpp lines 1285-1290):
a completed raw reading `t` is rejected when it is the disconnect sentinel
or out of the DS18B20 range [-55, 125]. -/
def ds_read_valid (t : ℚ) : Option ℚ :=
  if t = DEVICE_DISCONNECTED_C ∨ t < -55 ∨ t > 125 then none else some t

/-- The temperature/decision part of one control tick (main.cpp lines
1444-1470). `poll` is the outcome of `ds_poll` (`none` = no valid fresh
sample this tick: no sensor, still converting, disconnected or
out-of-range); `gLast` is the stored `g_lastTempC` (`none` = NaN).
Returns the new stored temperature and the decision (`g_lastAction`). -/
def control_tick (poll gLast : Option ℚ) (sp : ℚ) (prev : ℕ) :
    Option ℚ × ℕ :=
  let newLast := match poll with
    | some t => some t
    | none => gLast
  match newLast with
  | some t => (some t, apply_hysteresis t sp prev)
  | none => (none, 0)

/-- C1: for every temperature, setpoint and previous decision, the
hysteresis returns ON when `temp < sp - 0.25` and `temp < 19.8`; OFF when
`temp > sp + 0.25` or `temp ≥ 19.8`; holds `prev` inside the dead band
below the ceiling; and these three cases cover all inputs. -/
theorem hysteresis_characterization (temp sp : ℚ) (prev : ℕ) :
    ((temp < sp - 0.25 ∧ temp < 19.8) → apply_hysteresis temp sp prev = 1) ∧
    ((temp > sp + 0.25 ∨ temp ≥ 19.8) → apply_hysteresis temp sp prev = 0) ∧
    ((sp - 0.25 ≤ temp ∧ temp ≤ sp + 0.25 ∧ temp < 19.8) →
      apply_hysteresis temp sp prev = prev) ∧
    ((temp < sp - 0.25 ∧ temp < 19.8) ∨ (temp > sp + 0.25 ∨ temp ≥ 19.8) ∨
      (sp - 0.25 ≤ temp ∧ temp ≤ sp + 0.25 ∧ temp < 19.8)) := by
  have hband : HYST_BAND_C * 0.5 = (0.25 : ℚ) := by norm_num [HYST_BAND_C]
  unfold apply_hysteresis
  rw [hband]
  refine ⟨?_, ?_, ?_, ?_⟩
  · rintro ⟨h1, h2⟩
    rw [if_neg (by linarith), if_pos h1]
  · rintro (h | h)
    · by_cases hc : temp ≥ 19.8
      · rw [if_pos hc]
      · rw [if_neg hc, if_neg (by linarith), if_pos h]
    · rw [if_pos h]
  · rintro ⟨h1, h2, h3⟩
    rw [if_neg (by linarith), if_neg (by linarith), if_neg (by linarith)]
  · by_cases hc : temp ≥ 19.8
    · exact Or.inr (Or.inl (Or.inr hc))
    · rcases lt_trichotomy temp (sp - 0.25) with h | h | h
      · exact Or.inl ⟨h, by linarith⟩
      · exact Or.inr (Or.inr ⟨le_of_eq h.symm, by linarith, by linarith⟩)
      · by_cases hb : temp > sp + 0.25
        · exact Or.inr (Or.inl (Or.inl hb))
        · exact Or.inr (Or.inr ⟨le_of_lt h, by linarith, by linarith⟩)

/-- Witness for C1: the spec §8 scenario at sp = 19: temp 18 is ON,
temp 19.3 is OFF, temp 19 (dead band) holds the previous ON. -/
theorem hysteresis_characterization_witness :
    apply_hysteresis 18 19 0 = 1 ∧ apply_hysteresis 19.3 19 1 = 0 ∧
    apply_hysteresis 19 19 1 = 1 := by
  refine ⟨?_, ?_, ?_⟩
  · exact (hysteresis_characterization 18 19 0).1 (by norm_num)
  · exact (hysteresis_characterization 19.3 19 1).2.1 (Or.inl (by norm_num))
  · exact (hysteresis_characterization 19 19 1).2.2.1 (by norm_num)

/-- The in-memory fixed-setpoint state (`g_fixedSetpoint`, `g_fixedPreset`,
`g_fixedEnabled`, main.cpp lines 69-71). -/
structure SpState where
  value : ℚ
  preset : String
  enabled : Bool
  deriving DecidableEq

/-- The remote-adoption step at the end of `cesanaReportAndFetch`
(main.cpp lines 789-801). `remoteOk` is the parsed `ok` field,
`remoteSp` the parsed `setpoint` (`none` = absent/NaN). Returns the new
state and whether the remote setpoint was adopted (which also triggers
the forced `saveFixedSetpointIfNeeded(true)`). -/
def applyRemote (remoteOk : Bool) (remoteSp : Option ℚ) (s : SpState) :
    SpState × Bool :=
  match remoteSp with
  | none => (s, false)
  | some sp =>
    if remoteOk = true ∧ 5 ≤ sp ∧ sp ≤ 35 then
      if |sp - s.value| ≥ SP_EPS then
        ({ value := sp, preset := "remote", enabled := true }, true)
      else (s, false)
    else (s, false)

/-- The numeric branch of `handlePostFixed` (main.cpp lines 880-890):
a `setpoint` in [5,35] is adopted as `custom`; otherwise unchanged. -/
def postFixedNumeric (spArg : Option ℚ) (s : SpState) : SpState × Bool :=
  match spArg with
  | some sp =>
    if 5 ≤ sp ∧ sp ≤ 35 then ({ value := sp, preset := "custom", enabled := true }, true)
    else (s, false)
  | none => (s, false)

/-- `handlePostFixed`'s state mutation (main.cpp lines 849-890): a
non-empty `preset` argument selects a named preset; otherwise a numeric
`setpoint` in [5,35] is adopted as `custom`. Returns the new state and
the `changed` flag (false = 422, state untouched). -/
def handlePostFixed (presetArg : String) (spArg : Option ℚ) (s : SpState) :
    SpState × Bool :=
  if presetArg.length ≠ 0 then
    if presetArg = "off" then ({ value := 10, preset := "off", enabled := true }, true)
    else if presetArg = "on" then ({ value := 19, preset := "on", enabled := true }, true)
    else if presetArg = "away" then ({ value := 15, preset := "away", enabled := true }, true)
    else (s, false)
  else postFixedNumeric spArg s

/-- A public setpoint-mutating operation: a POST /api/fixed request or an
oracle response. -/
inductive SpOp where
  | post (presetArg : String) (spArg : Option ℚ)
  | remote (ok : Bool) (sp : Option ℚ)

/-- State reached after one public setpoint operation. -/
def applySpOp : SpOp → SpState → SpState
  | .post p o, s => (handlePostFixed p o s).1
  | .remote ok o, s => (applyRemote ok o s).1

/-- `getActiveSetpoint` (main.cpp line 1183). -/
def getActiveSetpoint (enabled : Bool) (fixed : ℚ) : ℚ :=
  if enabled then fixed else 19.0

/-- The setpoint reported by `handleStatus` (main.cpp line 922). -/
def statusSetpoint (enabled : Bool) (fixed : ℚ) : ℚ :=
  if enabled then fixed else 19.0

/-- The debounce state of the persisted-setpoint writer
(`g_lastSavedSetpoint`, `g_lastFsWriteMs`, main.cpp lines 104-105;
`none` = NaN). -/
structure FsState where
  lastSaved : Option ℚ
  lastFsWriteMs : ℕ
  deriving DecidableEq

/-- Result of `saveFixedSetpointIfNeeded`: the returned bool, whether a
physical write (`saveFixedSetpoint`) was performed, and the new debounce
state. -/
structure SaveResult where
  ok : Bool
  wrote : Bool
  st : FsState
  deriving DecidableEq

/-- The epsilon guard at the top of `saveFixedSetpointIfNeeded`
(main.cpp line 648): true when a last-saved value exists and the new
value is within `SP_EPS` of it. -/
def nearLastSaved (v : ℚ) (s : FsState) : Bool :=
  match s.lastSaved with
  | none => false
  | some l => decide (|v - l| < SP_EPS)

/-- `saveFixedSetpointIfNeeded` (main.cpp lines 646-659). `fsOk` models
the filesystem write in `saveFixedSetpoint` succeeding. -/
def saveFixedSetpointIfNeeded (force : Bool) (now : ℕ) (v : ℚ)
    (fsOk : Bool) (s : FsState) : SaveResult :=
  if nearLastSaved v s = true then ⟨true, false, s⟩
  else if force = false ∧ now - s.lastFsWriteMs < FS_WRITE_MIN_GAP_MS then
    ⟨true, false, s⟩
  else if fsOk = true then ⟨true, true, ⟨some v, now⟩⟩
  else ⟨false, true, s⟩

/-- C4 counterexample: with the current setpoint at 19.0, an oracle
response carrying setpoint 19.05 differs by exactly 0.05 — not by *more*
than 0.05 as the claim requires for adoption — yet the code adopts it,
because line 792 tests `>= SP_EPS`. -/
theorem remote_adopt_eps_counterexample :
    (applyRemote true (some 19.05) ⟨19, "on", true⟩).2 = true ∧
    ¬ (|(19.05 : ℚ) - 19| > SP_EPS) := by
  have habs : |(19.05 : ℚ) - 19| = 0.05 := by
    rw [show (19.05 : ℚ) - 19 = 0.05 by norm_num]
    exact abs_of_nonneg (by norm_num)
  constructor
  · simp only [applyRemote]
    rw [if_pos (by norm_num), if_pos (by rw [habs]; norm_num [SP_EPS])]
  · rw [habs]
    norm_num [SP_EPS]

/-- C4 amended: adoption happens iff `ok` is true, a setpoint in [5,35]
is present, and it differs from the current value by **at least** 0.05 °C
(`>= SP_EPS`, not strictly more); on adoption the state becomes
(setpoint, "remote", enabled) and the forced persisted write is
triggered; otherwise the state is untouched; and among the public
operations only the oracle path can make the preset "remote". -/
theorem remote_adopt_characterization (ok : Bool) (rsp : Option ℚ) (s : SpState) :
    ((applyRemote ok rsp s).2 = true ↔
      ok = true ∧ ∃ sp, rsp = some sp ∧ 5 ≤ sp ∧ sp ≤ 35 ∧ |sp - s.value| ≥ SP_EPS) ∧
    (∀ sp, rsp = some sp → (applyRemote ok rsp s).2 = true →
      (applyRemote ok rsp s).1 = ⟨sp, "remote", true⟩) ∧
    ((applyRemote ok rsp s).2 = false → (applyRemote ok rsp s).1 = s) ∧
    (∀ op : SpOp, (applySpOp op s).preset = "remote" →
      s.preset = "remote" ∨ ∃ k o, op = SpOp.remote k o) := by
  refine ⟨?_, ?_, ?_, ?_⟩
  · cases rsp with
    | none => simp [applyRemote]
    | some sp =>
      simp only [applyRemote]
      constructor
      · intro h
        split_ifs at h with h1 h2
        · exact ⟨h1.1, sp, rfl, h1.2.1, h1.2.2, h2⟩
      · rintro ⟨hok, sp2, heq, h5, h35, heps⟩
        obtain rfl : sp = sp2 := Option.some.inj heq
        rw [if_pos ⟨hok, h5, h35⟩, if_pos heps]
  · intro sp hr h
    subst hr
    simp only [applyRemote] at h ⊢
    by_cases h1 : ok = true ∧ 5 ≤ sp ∧ sp ≤ 35
    · by_cases h2 : |sp - s.value| ≥ SP_EPS
      · rw [if_pos h1, if_pos h2]
      · rw [if_pos h1, if_neg h2] at h
        exact absurd h (by simp)
    · rw [if_neg h1] at h
      exact absurd h (by simp)
  · intro h
    cases rsp with
    | none => simp [applyRemote]
    | some sp =>
      simp only [applyRemote] at h ⊢
      by_cases h1 : ok = true ∧ 5 ≤ sp ∧ sp ≤ 35
      · by_cases h2 : |sp - s.value| ≥ SP_EPS
        · rw [if_pos h1, if_pos h2] at h
          exact absurd h (by simp)
        · rw [if_pos h1, if_neg h2]
      · rw [if_neg h1]
  · intro op hpre
    cases op with
    | remote k o => exact Or.inr ⟨k, o, rfl⟩
    | post p o =>
      refine Or.inl ?_
      cases o with
      | none =>
        simp only [applySpOp, handlePostFixed, postFixedNumeric] at hpre
        split_ifs at hpre <;> simp_all
      | some sp =>
        simp only [applySpOp, handlePostFixed, postFixedNumeric] at hpre
        split_ifs at hpre <;> simp_all

/-- Witness for C4: the spec §8 scenario — the oracle returns 21.0
against a current setpoint of 19.0 (delta 2.0 ≥ 0.05); it is adopted and
the state becomes (21, "remote", enabled). -/
theorem remote_adopt_characterization_witness :
    (applyRemote true (some 21) ⟨19, "on", true⟩).2 = true ∧
    (applyRemote true (some 21) ⟨19, "on", true⟩).1 = ⟨21, "remote", true⟩ := by
  have habs : |(21 : ℚ) - 19| = 2 := by
    rw [show (21 : ℚ) - 19 = 2 by norm_num]
    exact abs_of_nonneg (by norm_num)
  have h := remote_adopt_characterization true (some 21) ⟨19, "on", true⟩
  have hadopt : (applyRemote true (some 21) ⟨19, "on", true⟩).2 = true :=
    h.1.mpr ⟨rfl, 21, rfl, by norm_num, by norm_num,
      by rw [show ((⟨19, "on", true⟩ : SpState)).value = (19 : ℚ) from rfl, habs]; norm_num [SP_EPS]⟩
  exact ⟨hadopt, h.2.1 21 rfl hadopt⟩

/-- C10: when `g_fixedEnabled` is false, both the control tick's active
setpoint and the /api/status setpoint are the hard-coded 19.0 °C,
regardless of the stored value; and every public setpoint operation
either leaves the state untouched or leaves `enabled = true` — none sets
it to false. -/
theorem enabled_false_fallback (v : ℚ) (op : SpOp) (s : SpState) :
    getActiveSetpoint false v = 19.0 ∧ statusSetpoint false v = 19.0 ∧
    ((applySpOp op s).enabled = true ∨ applySpOp op s = s) := by
  refine ⟨rfl, rfl, ?_⟩
  cases op with
  | post p o =>
    simp only [applySpOp, handlePostFixed]
    by_cases hp : p.length ≠ 0
    · rw [if_pos hp]
      split_ifs <;> first | exact Or.inl rfl | exact Or.inr rfl
    · rw [if_neg hp]
      cases o with
      | none => exact Or.inr rfl
      | some sp =>
        simp only [postFixedNumeric]
        split_ifs <;> first | exact Or.inl rfl | exact Or.inr rfl
  | remote k o =>
    simp only [applySpOp]
    cases o with
    | none => exact Or.inr rfl
    | some sp =>
      simp only [applyRemote]
      split_ifs <;> first | exact Or.inl rfl | exact Or.inr rfl

/-- Helper: the epsilon guard read as a proposition. -/
lemma nearLastSaved_iff (v : ℚ) (s : FsState) :
    nearLastSaved v s = true ↔ ∃ l, s.lastSaved = some l ∧ |v - l| < SP_EPS := by
  cases hls : s.lastSaved with
  | none => simp [nearLastSaved, hls]
  | some l => simp [nearLastSaved, hls]

/-- Helper: a call inside the epsilon guard returns success, writes
nothing and leaves the debounce state unchanged. -/
lemma saveIfNeeded_near (force : Bool) (now : ℕ) (v : ℚ) (fsOk : Bool)
    (s : FsState) (hn : nearLastSaved v s = true) :
    saveFixedSetpointIfNeeded force now v fsOk s = ⟨true, false, s⟩ := by
  simp only [saveFixedSetpointIfNeeded]
  rw [if_pos hn]

/-- Helper: a non-forced call inside the 30 s gap returns success,
writes nothing and leaves the debounce state unchanged. -/
lemma saveIfNeeded_gap (force : Bool) (now : ℕ) (v : ℚ) (fsOk : Bool)
    (s : FsState) (hn : ¬ nearLastSaved v s = true)
    (hg : force = false ∧ now - s.lastFsWriteMs < FS_WRITE_MIN_GAP_MS) :
    saveFixedSetpointIfNeeded force now v fsOk s = ⟨true, false, s⟩ := by
  simp only [saveFixedSetpointIfNeeded]
  rw [if_neg hn, if_pos hg]

/-- Helper: outside both guards a successful physical write happens and
the debounce state records the value and the write time. -/
lemma saveIfNeeded_write (force : Bool) (now : ℕ) (v : ℚ)
    (s : FsState) (hn : ¬ nearLastSaved v s = true)
    (hg : ¬ (force = false ∧ now - s.lastFsWriteMs < FS_WRITE_MIN_GAP_MS)) :
    saveFixedSetpointIfNeeded force now v true s = ⟨true, true, ⟨some v, now⟩⟩ := by
  simp only [saveFixedSetpointIfNeeded]
  rw [if_neg hn, if_neg hg]
  split_ifs with h
  · rfl
  · exact absurd trivial h

/-- C5 counterexample: a **forced** call (the remote-adoption path) with
the value 19.0 already recorded as last persisted returns success while
performing no physical write — it is silently dropped by the epsilon
guard on line 648, which the `force` flag does not bypass. -/
theorem forced_save_dropped_counterexample :
    saveFixedSetpointIfNeeded true 1000 19 true ⟨some 19, 0⟩ =
      ⟨true, false, ⟨some 19, 0⟩⟩ := by
  refine saveIfNeeded_near true 1000 19 true ⟨some 19, 0⟩ ?_
  rw [nearLastSaved_iff]
  exact ⟨19, rfl, by rw [sub_self, abs_zero]; norm_num [SP_EPS]⟩

/-- C5 amended: with a succeeding filesystem, a call performs a physical
write iff the value differs by at least `SP_EPS` from every recorded
last-persisted value **and** (the call is forced or at least 30 s passed
since the recorded last write — at boot the record is time 0 and the
loaded setpoint, so the first non-forced write of a fresh value also
waits for `millis() ≥ 30000`); a write records value/time, a non-write
changes nothing and still reports success; a forced write bypasses only
the 30 s gap, not the epsilon guard; and after any physical write of
value `v`, a second call with the same `v` performs no physical write. -/
theorem save_debounce_characterization (force : Bool) (now : ℕ) (v : ℚ) (s : FsState) :
    ((saveFixedSetpointIfNeeded force now v true s).wrote = true ↔
      (∀ l, s.lastSaved = some l → |v - l| ≥ SP_EPS) ∧
      (force = true ∨ now - s.lastFsWriteMs ≥ FS_WRITE_MIN_GAP_MS)) ∧
    ((saveFixedSetpointIfNeeded force now v true s).wrote = true →
      (saveFixedSetpointIfNeeded force now v true s).st = ⟨some v, now⟩) ∧
    ((saveFixedSetpointIfNeeded force now v true s).wrote = false →
      (saveFixedSetpointIfNeeded force now v true s).st = s ∧
      (saveFixedSetpointIfNeeded force now v true s).ok = true) ∧
    (∀ force2 now2,
      (saveFixedSetpointIfNeeded force now v true s).wrote = true →
      (saveFixedSetpointIfNeeded force2 now2 v true
        (saveFixedSetpointIfNeeded force now v true s).st).wrote = false) := by
  by_cases hn : nearLastSaved v s = true
  · rw [saveIfNeeded_near force now v true s hn]
    obtain ⟨l, hl, hlt⟩ := (nearLastSaved_iff v s).mp hn
    refine ⟨?_, ?_, ?_, ?_⟩
    · constructor
      · intro h
        exact absurd h (by simp)
      · rintro ⟨hall, _⟩
        exact absurd (hall l hl) (not_le.mpr hlt)
    · intro h
      exact absurd h (by simp)
    · intro h
      exact ⟨rfl, rfl⟩
    · intro f2 n2 h
      exact absurd h (by simp)
  · by_cases hg : force = false ∧ now - s.lastFsWriteMs < FS_WRITE_MIN_GAP_MS
    · rw [saveIfNeeded_gap force now v true s hn hg]
      refine ⟨?_, ?_, ?_, ?_⟩
      · constructor
        · intro h
          exact absurd h (by simp)
        · rintro ⟨_, hor⟩
          rcases hor with hf | ht
          · rw [hg.1] at hf
            exact absurd hf (by simp)
          · exact absurd ht (not_le.mpr hg.2)
      · intro h
        exact absurd h (by simp)
      · intro h
        exact ⟨rfl, rfl⟩
      · intro f2 n2 h
        exact absurd h (by simp)
    · rw [saveIfNeeded_write force now v s hn hg]
      have hnear2 : nearLastSaved v (⟨some v, now⟩ : FsState) = true := by
        rw [nearLastSaved_iff]
        exact ⟨v, rfl, by rw [sub_self, abs_zero]; norm_num [SP_EPS]⟩
      refine ⟨?_, ?_, ?_, ?_⟩
      · constructor
        · intro _
          constructor
          · intro l hl
            refine not_lt.mp fun hlt => hn ?_
            rw [nearLastSaved_iff]
            exact ⟨l, hl, hlt⟩
          · cases force with
            | true => exact Or.inl rfl
            | false =>
              rcases not_and_or.mp hg with h1 | h2
              · exact absurd rfl h1
              · exact Or.inr (not_lt.mp h2)
        · intro _
          rfl
      · intro _
        rfl
      · intro h
        exact absurd h (by simp)
      · intro f2 n2 _
        rw [saveIfNeeded_near f2 n2 v true ⟨some v, now⟩ hnear2]

/-- Witness for C5: from a fresh boot record (last write at time 0, no
recorded value), a non-forced save of 19.5 at t = 30000 ms performs the
physical write; an immediate second call with the same value does not. -/
theorem save_debounce_characterization_witness :
    (saveFixedSetpointIfNeeded false 30000 19.5 true ⟨none, 0⟩).wrote = true ∧
    (saveFixedSetpointIfNeeded false 30500 19.5 true
      (saveFixedSetpointIfNeeded false 30000 19.5 true ⟨none, 0⟩).st).wrote = false := by
  have h := save_debounce_characterization false 30000 19.5 ⟨none, 0⟩
  have hw : (saveFixedSetpointIfNeeded false 30000 19.5 true ⟨none, 0⟩).wrote = true :=
    h.1.mpr ⟨fun l hl => by simp at hl, Or.inr (by norm_num [FS_WRITE_MIN_GAP_MS])⟩
  exact ⟨hw, h.2.2.2 false 30500 hw⟩

/-- C3 counterexample: the tick at which the sensor has just become
unavailable (poll yields no valid sample, `ds_poll` returns false) does
NOT decide OFF when an earlier valid reading 15 °C is still stored in
`g_lastTempC`: with setpoint 19 the decision is ON (1), because line
1458 tests the *stored* `g_lastTempC`, which an invalid poll leaves in
place. -/
theorem control_tick_invalid_poll_counterexample :
    ¬ (∀ (gLast : Option ℚ) (sp : ℚ) (prev : ℕ),
        (control_tick none gLast sp prev).2 = 0) := by
  intro h
  have h15 := h (some 15) 19 1
  have : (control_tick none (some 15) 19 1).2 = 1 := by
    show apply_hysteresis 15 19 1 = 1
    exact (hysteresis_characterization 15 19 1).1 (by norm_num)
  rw [this] at h15
  exact one_ne_zero h15

/-- C3 amended: the decision is OFF (independent of the previous
decision) exactly when no valid temperature is stored — i.e. when no
valid sample has ever been obtained; an invalid fresh poll (no device,
disconnected, out-of-range — filtered by `ds_read_valid`) is not an
error, it simply leaves the stored temperature unchanged, and hysteresis
is applied to that retained value. The sensor is re-attempted every
control tick (hot-plug scan when absent, `ds_poll` otherwise). -/
theorem control_tick_failsafe (poll gLast : Option ℚ) (sp : ℚ) (prev : ℕ) (t : ℚ) :
    ((control_tick poll gLast sp prev).1 = none →
      (control_tick poll gLast sp prev).2 = 0) ∧
    (gLast = none → poll = none → (control_tick poll gLast sp prev).2 = 0) ∧
    (poll = none → (control_tick poll gLast sp prev).1 = gLast) ∧
    ((t < -55 ∨ t > 125) → ds_read_valid t = none) := by
  refine ⟨?_, ?_, ?_, ?_⟩
  · intro h
    cases poll with
    | some u => simp [control_tick] at h
    | none =>
      cases gLast with
      | some u => simp [control_tick] at h
      | none => rfl
  · rintro rfl rfl
    rfl
  · rintro rfl
    cases gLast with
    | some u => rfl
    | none => rfl
  · intro h
    unfold ds_read_valid
    rw [if_pos (Or.inr h)]

/-- Witness for C3 amended: before any valid sample (stored temperature
NaN), an invalid poll yields decision OFF even with previous decision
ON; and the out-of-range reading 130 °C is rejected by the filter. -/
theorem control_tick_failsafe_witness :
    (control_tick none none 19 1).2 = 0 ∧ ds_read_valid 130 = none := by
  have h := control_tick_failsafe none none 19 1 130
  exact ⟨h.2.1 rfl rfl, h.2.2.2 (Or.inr (by norm_num))⟩

/-- The static state of the relay-send block in `loop` (main.cpp lines
1476-1479): `azione` is the relay-facing output string ("ON" = true),
`onStartMs` the continuous-ON start time (0 = unset, as in the code),
`forcedOff`/`forcedOffUntil` the safety cooldown. -/
structure WdState where
  azione : Bool
  onStartMs : ℕ
  forcedOff : Bool
  forcedOffUntil : ℕ
  deriving DecidableEq

/-- First half of the once-per-minute safety block (main.cpp lines
1483-1498): track how long the output has been ON and trigger the
forced-OFF window after 3600000 ms; reset the timer when the output is
OFF. -/
def wd_safety (now : ℕ) (s : WdState) : WdState :=
  if s.azione then
    let os := if s.onStartMs = 0 then now else s.onStartMs
    if s.forcedOff = false ∧ now - os ≥ 3600000 then
      { s with onStartMs := os, forcedOff := true, forcedOffUntil := now + 1800000 }
    else
      { s with onStartMs := os }
  else
    { s with onStartMs := 0 }

/-- Second half of the once-per-minute safety block (main.cpp lines
1500-1516): during an active forced-OFF window hold the output OFF;
when the window has expired clear the flag; otherwise follow the
per-tick hysteresis action. -/
def wd_output (now : ℕ) (action : ℕ) (s : WdState) : WdState :=
  if s.forcedOff then
    if now ≥ s.forcedOffUntil then { s with forcedOff := false }
    else { s with azione := false }
  else
    { s with azione := action == 1 }

/-- One execution of the once-per-minute update (both halves). -/
def wd_update (now : ℕ) (action : ℕ) (s : WdState) : WdState :=
  wd_output now action (wd_safety now s)

/-- State of the relay TX block: watchdog state plus `timerAction`,
the time of the last once-per-minute update (main.cpp line 1473). -/
structure TxState where
  wd : WdState
  timerAction : ℕ
  deriving DecidableEq

/-- One pass through the relay TX block (main.cpp lines 1472-1528)
during a control tick at time `now` with hysteresis decision `action`:
the watchdog state is updated only when more than 60000 ms passed since
`timerAction`, and then `esp_now_send` transmits `azione`
unconditionally. Returns the transmitted value and the new state. -/
def tx_tick (now : ℕ) (action : ℕ) (s : TxState) : Bool × TxState :=
  let s2 := if now - s.timerAction > 60000 then
      ⟨wd_update now action s.wd, now⟩
    else s
  (s2.wd.azione, s2)

/-- Times at which an ESP-NOW send occurs over a run of control ticks
(each tick is a (time, action) pair): one send per tick. -/
def tx_send_times : List (ℕ × ℕ) → TxState → List ℕ
  | [], _ => []
  | (now, a) :: rest, s => now :: tx_send_times rest (tx_tick now a s).2

/-- Checks that consecutive entries of a (time) list are at least `gap`
apart. -/
def minGapOK (gap : ℕ) : List ℕ → Bool
  | t1 :: t2 :: rest => decide (gap ≤ t2 - t1) && minGapOK gap (t2 :: rest)
  | _ => true

/-- Helper: during an active cooldown window an update holds the output
OFF and keeps the flag set, regardless of the hysteresis action. -/
lemma wd_hold (now action : ℕ) (s : WdState) (hf : s.forcedOff = true)
    (hlt : now < s.forcedOffUntil) :
    (wd_update now action s).azione = false ∧
    (wd_update now action s).forcedOff = true := by
  unfold wd_update wd_safety
  cases hz : s.azione with
  | true =>
    rw [if_pos rfl, if_neg (by simp [hf])]
    unfold wd_output
    simp only
    rw [if_pos hf, if_neg (by omega)]
    exact ⟨rfl, hf⟩
  | false =>
    rw [if_neg (by simp)]
    unfold wd_output
    simp only
    rw [if_pos hf, if_neg (by omega)]
    exact ⟨rfl, hf⟩

/-- C2: the safety watchdog, per once-per-minute execution: (trigger)
with the output ON, no cooldown active, and the ON timer set at least
3600000 ms ago, the execution forces the output OFF, sets the cooldown
flag and schedules its end 1800000 ms ahead; (hold) during an active
cooldown the output is OFF and the flag stays set regardless of the
hysteresis action; (expiry) once the cooldown end time is reached the
flag clears, so normal hysteresis evaluation resumes; (resume) with no
cooldown and the trigger not firing, the output follows the hysteresis
action; (reset) whenever the output is OFF the continuous-ON timer is
reset. -/
theorem watchdog_step_props (now : ℕ) (action : ℕ) (s : WdState) :
    (s.azione = true → s.forcedOff = false → s.onStartMs ≠ 0 →
      now - s.onStartMs ≥ 3600000 →
      (wd_update now action s).forcedOff = true ∧
      (wd_update now action s).forcedOffUntil = now + 1800000 ∧
      (wd_update now action s).azione = false) ∧
    (s.forcedOff = true → now < s.forcedOffUntil →
      (wd_update now action s).azione = false ∧
      (wd_update now action s).forcedOff = true) ∧
    (s.forcedOff = true → now ≥ s.forcedOffUntil →
      (wd_update now action s).forcedOff = false) ∧
    (s.forcedOff = false →
      (s.azione = true →
        now - (if s.onStartMs = 0 then now else s.onStartMs) < 3600000) →
      (wd_update now action s).azione = (action == 1)) ∧
    (s.azione = false → (wd_update now action s).onStartMs = 0) := by
  refine ⟨?_, ?_, ?_, ?_, ?_⟩
  · intro ha hf h0 hge
    unfold wd_update wd_safety
    rw [if_pos ha, if_neg h0, if_pos ⟨hf, hge⟩]
    unfold wd_output
    simp only
    rw [if_pos trivial, if_neg (by omega)]
    exact ⟨rfl, rfl, rfl⟩
  · exact wd_hold now action s
  · intro hf hge
    unfold wd_update wd_safety
    cases hz : s.azione with
    | true =>
      rw [if_pos rfl, if_neg (by simp [hf])]
      unfold wd_output
      simp only
      rw [if_pos hf, if_pos hge]
    | false =>
      rw [if_neg (by simp)]
      unfold wd_output
      simp only
      rw [if_pos hf, if_pos hge]
  · intro hf hnt
    unfold wd_update wd_safety
    cases hz : s.azione with
    | true =>
      rw [if_pos rfl, if_neg (fun hc => absurd hc.2 (not_le.mpr (hnt hz)))]
      unfold wd_output
      simp only
      rw [if_neg (by simp [hf])]
    | false =>
      rw [if_neg (by simp)]
      unfold wd_output
      simp only
      rw [if_neg (by simp [hf])]
  · intro hz
    unfold wd_update wd_safety
    rw [if_neg (by simp [hz])]
    unfold wd_output
    simp only
    split_ifs <;> rfl

/-- Witness for C2: from output ON since t = 1000 ms with no cooldown,
the update at t = 3601000 ms (elapsed 3600000) triggers the forced OFF
with cooldown until 5401000; an update during the cooldown (t = 3661000,
action ON) keeps the output OFF; an update after it (t = 5401000) clears
the flag; with the flag clear the output follows the action; and an
update with the output OFF resets the ON timer. -/
theorem watchdog_step_props_witness :
    (wd_update 3601000 1 ⟨true, 1000, false, 0⟩).forcedOff = true ∧
    (wd_update 3601000 1 ⟨true, 1000, false, 0⟩).azione = false ∧
    (wd_update 3661000 1 ⟨false, 0, true, 5401000⟩).azione = false ∧
    (wd_update 5401000 1 ⟨false, 0, true, 5401000⟩).forcedOff = false ∧
    (wd_update 5461000 1 ⟨false, 0, false, 5401000⟩).azione = true ∧
    (wd_update 5461000 1 ⟨false, 123, false, 5401000⟩).onStartMs = 0 := by
  have h1 := (watchdog_step_props 3601000 1 ⟨true, 1000, false, 0⟩).1
    rfl rfl (by decide) (by decide)
  have h2 := (watchdog_step_props 3661000 1 ⟨false, 0, true, 5401000⟩).2.1
    rfl (by decide)
  have h3 := (watchdog_step_props 5401000 1 ⟨false, 0, true, 5401000⟩).2.2.1
    rfl (by decide)
  have h4 := (watchdog_step_props 5461000 1 ⟨false, 0, false, 5401000⟩).2.2.2.1
    rfl (fun hc => absurd hc (by decide))
  have h5 := (watchdog_step_props 5461000 1 ⟨false, 123, false, 5401000⟩).2.2.2.2
    rfl
  exact ⟨h1.1, h1.2.2, h2.1, h3, h4, h5⟩

/-- C6 counterexample: two consecutive control ticks 200 ms apart (at
t = 100000 and t = 100200) each perform an `esp_now_send` — the claimed
minimum 60 s cadence between sends is violated, because only the
*value update* sits behind the 60 s guard (line 1481), not the send
itself (line 1526). -/
theorem tx_cadence_counterexample :
    minGapOK 60000
      (tx_send_times [(100000, 1), (100200, 1)] ⟨⟨false, 0, false, 0⟩, 0⟩) =
      false := by decide

/-- C6 amended: a relay command is sent on **every** control tick
(~200 ms cadence), but the value it carries is the watchdog-adjusted
output `azione`: it is recomputed at most once per 60 s (ticks within
60000 ms of the last update transmit the previous value unchanged), and
whenever an update falls inside an active cooldown window the
transmitted value is OFF regardless of the per-tick hysteresis action. -/
theorem tx_tick_characterization (now : ℕ) (action : ℕ) (s : TxState) :
    ((tx_tick now action s).1 = (tx_tick now action s).2.wd.azione) ∧
    (now - s.timerAction ≤ 60000 → (tx_tick now action s).2 = s ∧
      (tx_tick now action s).1 = s.wd.azione) ∧
    (now - s.timerAction > 60000 →
      (tx_tick now action s).2 = ⟨wd_update now action s.wd, now⟩) ∧
    (now - s.timerAction > 60000 → s.wd.forcedOff = true →
      now < s.wd.forcedOffUntil → (tx_tick now action s).1 = false) := by
  refine ⟨?_, ?_, ?_, ?_⟩
  · unfold tx_tick
    split_ifs <;> rfl
  · intro h
    unfold tx_tick
    rw [if_neg (by omega)]
    exact ⟨rfl, rfl⟩
  · intro h
    unfold tx_tick
    rw [if_pos h]
  · intro h hf hlt
    unfold tx_tick
    rw [if_pos h]
    simp only
    exact (wd_hold now action s.wd hf hlt).1

/-- Witness for C6 amended: with the last value update at t = 100000
(output ON), the tick at t = 100200 sends but leaves the state alone;
the tick at t = 160100 performs the update; and a tick during an active
cooldown sends OFF although the hysteresis action is ON. -/
theorem tx_tick_characterization_witness :
    (tx_tick 100200 1 ⟨⟨true, 40000, false, 0⟩, 100000⟩).1 = true ∧
    (tx_tick 160100 1 ⟨⟨true, 40000, false, 0⟩, 100000⟩).2 =
      ⟨wd_update 160100 1 ⟨true, 40000, false, 0⟩, 160100⟩ ∧
    (tx_tick 160100 1 ⟨⟨true, 40000, true, 200000⟩, 100000⟩).1 = false := by
  refine ⟨?_, ?_, ?_⟩
  · exact ((tx_tick_characterization 100200 1
      ⟨⟨true, 40000, false, 0⟩, 100000⟩).2.1 (by decide)).2
  · exact (tx_tick_characterization 160100 1
      ⟨⟨true, 40000, false, 0⟩, 100000⟩).2.2.1 (by decide)
  · exact (tx_tick_characterization 160100 1
      ⟨⟨true, 40000, true, 200000⟩, 100000⟩).2.2.2 (by decide) rfl (by decide)

/-- The heating-state selection for the oracle report (main.cpp line
1534): `g_haveAck ? g_ackRelayOn : (action == 1)` — the ACK value is
preferred whenever any ACK was ever received. -/
def heatingForReport (haveAck ackRelayOn : Bool) (action : ℕ) : Bool :=
  if haveAck then ackRelayOn else action == 1

/-- Modelled from the spec: the claimed report rule, preferring the ACK
relay state only while it is fresh (now − receivedAt ≤ 5000 ms), and the
local decision otherwise. -/
def specHeatingForReport (now ackLastMs : ℕ) (haveAck ackRelayOn : Bool)
    (action : ℕ) : Bool :=
  if haveAck = true ∧ now - ackLastMs ≤ 5000 then ackRelayOn else action == 1

/-- C7 counterexample: an ACK received at t = 0 reporting relay ON is
stale at t = 10000 ms (age 10000 > 5000); with the local decision OFF the
code still reports ON (the stored ACK), while the claim requires the
local decision OFF — line 1534 has no freshness check. -/
theorem report_stale_ack_counterexample :
    heatingForReport true true 0 = true ∧
    specHeatingForReport 10000 0 true true 0 = false ∧
    10000 - 0 > 5000 := by decide

/-- C7 amended: the heating state reported to the oracle is the stored
ACK relay state whenever **any** ACK has ever been received — regardless
of its age, including when it is stale (older than 5000 ms) — and the
local decision only when no ACK was ever received; the 5000 ms freshness
window affects only UI presentation. -/
theorem report_prefers_any_ack (haveAck ackRelayOn : Bool)
    (action now ackLastMs : ℕ) :
    (haveAck = true → heatingForReport haveAck ackRelayOn action = ackRelayOn) ∧
    (haveAck = false → heatingForReport haveAck ackRelayOn action = (action == 1)) ∧
    (haveAck = true → now - ackLastMs > 5000 →
      heatingForReport haveAck ackRelayOn action = ackRelayOn) := by
  refine ⟨?_, ?_, ?_⟩
  · intro h
    unfold heatingForReport
    rw [if_pos h]
  · intro h
    unfold heatingForReport
    rw [if_neg (by rw [h]; exact Bool.false_ne_true)]
  · intro h _
    unfold heatingForReport
    rw [if_pos h]

/-- Witness for C7 amended: with a (stale) ACK recorded at 0 and now =
10000, the report is the ACK value ON; with no ACK ever received the
report is the local decision. -/
theorem report_prefers_any_ack_witness :
    heatingForReport true true 0 = true ∧
    heatingForReport false true 1 = true := by
  constructor
  · exact (report_prefers_any_ack true true 0 10000 0).2.2 rfl (by decide)
  · exact (report_prefers_any_ack false true 1 10000 0).2.1 rfl

/-- The stored ACK state (`g_haveAck`, `g_ackRelayOn`, `g_ackLastMs`,
main.cpp lines 78-80). -/
structure AckSt where
  haveAck : Bool
  ackRelayOn : Bool
  ackLastMs : ℕ
  deriving DecidableEq

/-- A parsed inbound payload with the code's defaults applied:
`ack = doc["ack"] | nullptr`, `relay = doc["relay"] | -1`,
`ok = doc["ok"] | false` (main.cpp lines 165-167). -/
structure RxMsg where
  ack : Option String
  relay : ℤ
  ok : Bool
  deriving DecidableEq

/-- `onDataRecv` (main.cpp lines 147-179): `none` models a JSON parse
error (dropped with a log line); a parsed payload without `ok` true and
a non-negative `relay` is likewise dropped; otherwise the ACK state is
recorded with `relayOn = (relay == 1) || (ack == "ON")` at time `now`. -/
def onDataRecv (now : ℕ) (msg : Option RxMsg) (s : AckSt) : AckSt :=
  match msg with
  | none => s
  | some m =>
    if m.ok = false ∨ m.relay < 0 then s
    else ⟨true, (m.relay == 1) || (m.ack == some "ON"), now⟩

/-- C8 counterexample: the alternate-field-name ACK `{ack:"ON", ok:true}`
— well formed per the claim — is dropped and the stored ACK state stays
unchanged, because line 168 requires a non-negative `relay` field and the
missing field defaults to -1. -/
theorem ack_alternate_form_counterexample :
    onDataRecv 1000 (some ⟨some "ON", -1, true⟩) ⟨false, false, 0⟩ =
      ⟨false, false, 0⟩ ∧
    (onDataRecv 1000 (some ⟨some "ON", -1, true⟩) ⟨false, false, 0⟩).haveAck =
      false := by
  have h : onDataRecv 1000 (some ⟨some "ON", -1, true⟩) ⟨false, false, 0⟩ =
      ⟨false, false, 0⟩ := by
    simp only [onDataRecv]
    rw [if_pos (Or.inr (by norm_num))]
  exact ⟨h, by rw [h]⟩

/-- C8 amended: the stored ACK state is updated iff the payload parses
and carries `ok = true` together with a present, non-negative `relay`
field; the `ack:"ON"` field only augments the ON determination
(`relayOn = (relay == 1) || (ack == "ON")`) and is **not** accepted on
its own; every other payload (parse error, missing/false `ok`, missing
or negative `relay`) leaves the state unchanged — the handler never
faults, it only logs. -/
theorem ack_update_characterization (now : ℕ) (msg : Option RxMsg) (s : AckSt) :
    (onDataRecv now none s = s) ∧
    (∀ m, msg = some m → (m.ok = false ∨ m.relay < 0) →
      onDataRecv now msg s = s) ∧
    (∀ m, msg = some m → m.ok = true → 0 ≤ m.relay →
      onDataRecv now msg s = ⟨true, (m.relay == 1) || (m.ack == some "ON"), now⟩) := by
  refine ⟨rfl, ?_, ?_⟩
  · intro m hm hcond
    subst hm
    simp only [onDataRecv]
    rw [if_pos hcond]
  · intro m hm hok hrel
    subst hm
    have hng : ¬ (m.ok = false ∨ m.relay < 0) := by
      rintro (h | h)
      · rw [hok] at h
        exact Bool.noConfusion h
      · exact absurd h (not_lt.mpr hrel)
    simp only [onDataRecv]
    rw [if_neg hng]

/-- Witness for C8 amended: the canonical ACK `{relay:1, ok:true}` is
recorded as relay ON at its receive time, and the relay-less alternate
form `{ack:"ON", ok:true}` leaves a previously recorded state alone. -/
theorem ack_update_characterization_witness :
    onDataRecv 2000 (some ⟨none, 1, true⟩) ⟨false, false, 0⟩ =
      ⟨true, true, 2000⟩ ∧
    onDataRecv 3000 (some ⟨some "ON", -1, true⟩) ⟨true, true, 500⟩ =
      ⟨true, true, 500⟩ := by
  constructor
  · exact (ack_update_characterization 2000 (some ⟨none, 1, true⟩)
      ⟨false, false, 0⟩).2.2 ⟨none, 1, true⟩ rfl rfl (by norm_num)
  · exact (ack_update_characterization 3000 (some ⟨some "ON", -1, true⟩)
      ⟨true, true, 500⟩).2.1 ⟨some "ON", -1, true⟩ rfl (Or.inr (by norm_num))

/-- `startApFallback` (main.cpp lines 109-123): idempotent — if the AP
flag is already set it returns immediately; otherwise the flag becomes
the result of `WiFi.softAP` (`softApOk`). -/
def startApFallback (softApOk : Bool) (apActive : Bool) : Bool :=
  if apActive then apActive else softApOk

/-- Boot-time `connectWiFi` (main.cpp lines 1091-1121): `staOk` models
STA association succeeding within the bounded ~15 s wait; on success the
AP flag is cleared, on failure the AP fallback is started. Returns the
new `g_apActive`. -/
def connectWiFi (staOk softApOk : Bool) (apActive : Bool) : Bool :=
  if staOk then false else startApFallback softApOk apActive

/-- The connectivity-relevant loop state: `prevSta` (static in `loop`,
line 1387) and `g_apActive`. -/
structure ConnSt where
  prevSta : Bool
  apActive : Bool
  deriving DecidableEq

/-- The connectivity-management part of one `loop` pass (main.cpp lines
1386-1429): the bootstrap (mDNS + OTA re-init) runs exactly on a rising
STA edge, which also clears the AP flag; while STA is down the AP
fallback is (re)asserted; `prevSta` tracks the current STA status.
Returns whether the bootstrap ran, and the new state. -/
def loop_conn_step (softApOk sta : Bool) (s : ConnSt) : Bool × ConnSt :=
  let ran := sta && !s.prevSta
  let ap1 := if sta && !s.prevSta then false else s.apActive
  let ap2 := if sta then ap1
    else if ap1 = false then startApFallback softApOk ap1 else ap1
  (ran, ⟨sta, ap2⟩)

/-- Number of bootstrap (mDNS/OTA) executions over a run of loop passes
with the given per-pass STA statuses. -/
def bootstrapRuns (softApOk : Bool) : List Bool → ConnSt → ℕ
  | [], _ => 0
  | sta :: rest, s =>
    (if (loop_conn_step softApOk sta s).1 = true then 1 else 0) +
      bootstrapRuns softApOk rest (loop_conn_step softApOk sta s).2

/-- Number of disconnected-to-connected edges in a status sequence,
given the preceding status. -/
def risingEdges : List Bool → Bool → ℕ
  | [], _ => 0
  | sta :: rest, prev => (if sta && !prev then 1 else 0) + risingEdges rest sta

/-- C9: if STA association fails at boot (and the softAP start succeeds),
the AP fallback is active afterwards, whatever the prior flag; over any
run of loop passes the connectivity bootstrap (mDNS/OTA re-init) runs
exactly as many times as there are STA rising edges — once per edge,
never unconditionally per tick; and a pass with STA down and no AP
re-asserts the AP fallback. -/
theorem conn_bootstrap_once (ap softApOk : Bool) (trace : List Bool)
    (s : ConnSt) (p : Bool) :
    connectWiFi false true ap = true ∧
    bootstrapRuns softApOk trace s = risingEdges trace s.prevSta ∧
    (loop_conn_step true false ⟨p, false⟩).2.apActive = true := by
  refine ⟨?_, ?_, ?_⟩
  · cases ap <;> rfl
  · induction trace generalizing s with
    | nil => rfl
    | cons sta rest ih =>
      simp only [bootstrapRuns, risingEdges]
      rw [ih]
      rfl
  · cases p <;> rfl

end Thermo
